import Mathlib

/-!
Verification development for the ccdutils CCD reader and component sanitizer.

The definitions below are a shallow embedding of the Python sources
`core/ccd_reader.py`, `pdbeccdutils/core/component.py` and
`pdbeccdutils/core/models.py`.  RDKit's `RWMol` is embedded as a plain
graph value (`Mol`); the handful of RDKit primitives the sources call
(`AddBond`, `GetConformer`, bond/valence bookkeeping) are modelled after
RDKit's behaviour and documented at their definitions.  Python exceptions
are made explicit with `Except PyExc`; Python locals that may be read
before assignment (a `NameError` hazard in the bond loop) are threaded as
`Option` state.
-/

/-- Python exception kinds that the embedded code can raise or catch. -/
inductive PyExc
  | valueError
  | runtimeError
  | nameError
  | typeError
  | keyError
  | attributeError
  | indexError
  | ccdUtilsError
deriving DecidableEq

deriving instance DecidableEq for Except

/-- A node of the molecular graph: the subset of RDKit atom state the
sources read or write (name property, element symbol, atomic number,
formal charge, the no-implicit-hydrogens flag). -/
structure Atom where
  aname : String := ""
  element : String := ""
  atomicNum : Nat := 0
  charge : Int := 0
  noImplicit : Bool := false
deriving DecidableEq

/-- RDKit bond types used by the sources: orders 1/2/3 from
`_bond_pdb_order` plus the dative kind used by `_fix_molecule_fast`. -/
inductive BondType
  | single
  | double
  | triple
  | dative
deriving DecidableEq

/-- An edge of the molecular graph: begin index, end index, bond type. -/
structure Bond where
  a : Nat
  b : Nat
  btype : BondType
deriving DecidableEq

/-- A conformer: RDKit conformer id, name property, one position per atom.
Coordinates are exact rationals standing for the parsed decimal literals;
the only coordinate operation the sources perform on them is an exact
comparison with the origin (0,0,0). -/
structure Conformer where
  cid : Int
  cname : String
  positions : List (Rat × Rat × Rat)
deriving DecidableEq

/-- The molecular graph underlying `rdkit.Chem.RWMol`. -/
structure Mol where
  atoms : List Atom := []
  bonds : List Bond := []
  conformers : List Conformer := []
deriving DecidableEq

/-- Element symbol of atom `i` (empty for an out-of-range index). -/
def elementAt (m : Mol) (i : Nat) : String :=
  ((m.atoms.get? i).map Atom.element).getD ""

/-- Atomic number of atom `i` (0 for an out-of-range index). -/
def atomicNumAt (m : Mol) (i : Nat) : Nat :=
  ((m.atoms.get? i).map Atom.atomicNum).getD 0

/-- Formal charge of atom `i` (0 for an out-of-range index). -/
def chargeAt (m : Mol) (i : Nat) : Int :=
  ((m.atoms.get? i).map Atom.charge).getD 0

/-- Whether the graph already holds an edge on the unordered pair
`{i, j}`. -/
def hasEdge (m : Mol) (i j : Nat) : Bool :=
  m.bonds.any fun bd => decide ((bd.a = i ∧ bd.b = j) ∨ (bd.a = j ∧ bd.b = i))

/-- RDKit `RWMol.AddBond`, as the sources use it
(`ccd_reader.py:_parse_pdb_bonds`): called with the result of
`_bond_pdb_order`, which is `None` for unrecognized orders.  RDKit's
Boost.Python binding rejects `None` for the `BondType` argument with an
`ArgumentError`, a `TypeError` subclass; adding a bond between an already
bonded pair violates a precondition and raises `RuntimeError`.  Otherwise
the edge is appended. -/
def addBond (m : Mol) (i j : Nat) (order : Option BondType) : Except PyExc Mol :=
  match order with
  | none => Except.error PyExc.typeError
  | some bt =>
    if hasEdge m i j then Except.error PyExc.runtimeError
    else Except.ok { m with bonds := m.bonds ++ [⟨i, j, bt⟩] }

/-- `ccd_reader._bond_pdb_order`: SING/DOUB/TRIP map to bond orders
1/2/3; any other text falls through to `None`. -/
def bondPdbOrder (value_order : String) : Option BondType :=
  if value_order = "SING" then some BondType.single
  else if value_order = "DOUB" then some BondType.double
  else if value_order = "TRIP" then some BondType.triple
  else none

/-- One row of the `_chem_comp_bond` category as handed to
`_parse_pdb_bonds`. -/
structure BondRow where
  atomId1 : String
  atomId2 : String
  valueOrder : String
deriving DecidableEq

/-- Python `list.index`: index of the first occurrence, `none` where
Python raises `ValueError`. -/
def listIndex : List String → String → Option Nat
  | [], _ => none
  | y :: ys, x => if y = x then some 0 else (listIndex ys x).map (· + 1)

/-- The loop locals `atom_1` / `atom_2` of `_parse_pdb_bonds`.  They
survive from one iteration to the next and start out unassigned, so a
handler that formats them may hit a stale value or an unassigned name. -/
structure BondLocals where
  a1 : Option String
  a2 : Option String
deriving DecidableEq

/-- Reading a Python local: unassigned means `NameError`. -/
def readLocal : Option String → Except PyExc String
  | none => Except.error PyExc.nameError
  | some s => Except.ok s

/-- The `try` body of one iteration of `_parse_pdb_bonds`: assign
`atom_1`, resolve it, assign `atom_2`, resolve it, map the order, call
`AddBond`.  Returns the locals as of the exit point together with the
body's outcome. -/
def bondRowBody (atomIds : List String) (m : Mol) (prev : BondLocals) (row : BondRow) :
    BondLocals × Except PyExc Mol :=
  let a1 : Option String := some row.atomId1
  match listIndex atomIds row.atomId1 with
  | none => (⟨a1, prev.a2⟩, Except.error PyExc.valueError)
  | some i1 =>
    let a2 : Option String := some row.atomId2
    match listIndex atomIds row.atomId2 with
    | none => (⟨a1, a2⟩, Except.error PyExc.valueError)
    | some i2 => (⟨a1, a2⟩, addBond m i1 i2 (bondPdbOrder row.valueOrder))

/-- Mutable state of `_parse_pdb_bonds`: the molecule, the caller's
`errors` list, and the loop locals. -/
structure BondParseState where
  mol : Mol
  errors : List String
  locals : BondLocals
deriving DecidableEq

/-- One iteration of `_parse_pdb_bonds` with its two `except` clauses:
`ValueError` appends `"Error perceiving {atom_1} - {atom_2} bond in
_chem_comp_bond"`, `RuntimeError` appends `"Duplicit bond {atom_1} -
{atom_2}"`; formatting an unassigned local raises `NameError`, and any
other exception propagates. -/
def parseBondRow (atomIds : List String) (st : BondParseState) (row : BondRow) :
    Except PyExc BondParseState :=
  match bondRowBody atomIds st.mol st.locals row with
  | (lcl, Except.ok m2) => Except.ok ⟨m2, st.errors, lcl⟩
  | (lcl, Except.error PyExc.valueError) =>
    match readLocal lcl.a1, readLocal lcl.a2 with
    | Except.ok s1, Except.ok s2 =>
      Except.ok ⟨st.mol,
        st.errors ++ ["Error perceiving " ++ s1 ++ " - " ++ s2 ++ " bond in _chem_comp_bond"],
        lcl⟩
    | _, _ => Except.error PyExc.nameError
  | (lcl, Except.error PyExc.runtimeError) =>
    match readLocal lcl.a1, readLocal lcl.a2 with
    | Except.ok s1, Except.ok s2 =>
      Except.ok ⟨st.mol, st.errors ++ ["Duplicit bond " ++ s1 ++ " - " ++ s2], lcl⟩
    | _, _ => Except.error PyExc.nameError
  | (_, Except.error e) => Except.error e

/-- The row loop of `_parse_pdb_bonds`.  On an uncaught exception the
in-place mutations made so far remain visible to the caller, so the
result carries the molecule and error list at the point of escape
together with the escaped exception. -/
def parsePdbBondsGo (atomIds : List String) :
    BondParseState → List BondRow → Mol × List String × Option PyExc
  | st, [] => (st.mol, st.errors, none)
  | st, row :: rows =>
    match parseBondRow atomIds st row with
    | Except.ok st2 => parsePdbBondsGo atomIds st2 rows
    | Except.error e => (st.mol, st.errors, some e)

/-- `ccd_reader._parse_pdb_bonds`: resolve each bond row against the atom
name table and add edges, accumulating non-fatal error strings.  The
`errors` component holds the strings this call appended to the caller's
list. -/
def parsePdbBonds (atomIds : List String) (m : Mol) (rows : List BondRow) :
    Mol × List String × Option PyExc :=
  parsePdbBondsGo atomIds ⟨m, [], ⟨none, none⟩⟩ rows

/-- Whether some neighbor of atom `i` is a hydrogen
(`GetAtomicNum() == 1`), as scanned over the incident bonds. -/
def hasExplicitHNeighbor (m : Mol) (i : Nat) : Bool :=
  m.bonds.any fun bd =>
    decide ((bd.a = i ∧ atomicNumAt m bd.b = 1) ∨ (bd.b = i ∧ atomicNumAt m bd.a = 1))

/-- The per-atom update of `_handle_implicit_hydrogens`, applied over the
atom list starting at index `k`: hydrogens are skipped; every other atom
gets `SetNoImplicit(no_Hs)` where `no_Hs` is true exactly when no bonded
neighbor is a hydrogen. -/
def setNoImplicitFrom (m : Mol) : Nat → List Atom → List Atom
  | _, [] => []
  | k, a :: rest =>
    (if a.atomicNum = 1 then a else { a with noImplicit := !hasExplicitHNeighbor m k }) ::
      setNoImplicitFrom m (k + 1) rest

/-- `ccd_reader._handle_implicit_hydrogens`: its docstring reads "Forbid
atoms which does not have explicit Hydrogen partner to get implicit
hydrogen", and the body sets `no_Hs = True` unless a hydrogen neighbor is
found, then calls `SetNoImplicit(no_Hs)`.  Only atom flags change, so the
neighbor scan over the original graph is unaffected by the updates. -/
def handleImplicitHydrogens (m : Mol) : Mol :=
  { m with atoms := setNoImplicitFrom m 0 m.atoms }

/-- Two edges cover the same unordered atom pair. -/
def sameUnorderedPair (b1 b2 : Bond) : Prop :=
  (b1.a = b2.a ∧ b1.b = b2.b) ∨ (b1.a = b2.b ∧ b1.b = b2.a)

instance : DecidablePred fun p : Bond × Bond => sameUnorderedPair p.1 p.2 := by
  intro p; unfold sameUnorderedPair; infer_instance

/-- The duplicate-edge invariant: no two bonds of the graph connect the
same unordered atom pair. -/
def noDupEdges (m : Mol) : Prop :=
  List.Pairwise (fun b1 b2 => ¬ sameUnorderedPair b1 b2) m.bonds

/-- The element symbols of `component.METALS_SMART`, in source order. -/
def metalsList : List String :=
  ["Li", "Na", "K", "Rb", "Cs", "F", "Be", "Mg", "Ca", "Sr", "Ba", "Ra",
   "Sc", "Ti", "V", "Cr", "Mn", "Fe", "Co", "Ni", "Cu", "Zn", "Al", "Ga",
   "Y", "Zr", "Nb", "Mo", "Tc", "Ru", "Rh", "Pd", "Ag", "Cd", "In", "Sn",
   "Hf", "Ta", "W", "Re", "Os", "Ir", "Pt", "Au", "Hg", "Tl", "Pb", "Bi"]

/-- Membership in the fixed metallic-element set of `METALS_SMART`. -/
def isMetal (e : String) : Bool :=
  metalsList.contains e

/-- `GetSubstructMatches` for the pattern `METALS_SMART ~ [elem]`: every
(metal index, elem index) pair joined by a bond, enumerated along the
bond list, each bond checked in both directions. -/
def metalAtomBonds (m : Mol) (elem : String) : List (Nat × Nat) :=
  m.bonds.foldr
    (fun bd acc =>
      (if isMetal (elementAt m bd.a) && (elementAt m bd.b == elem)
        then [(bd.a, bd.b)] else []) ++
      (if isMetal (elementAt m bd.b) && (elementAt m bd.a == elem)
        then [(bd.b, bd.a)] else []) ++ acc)
    []

/-- ASCII letter, the character class `[a-zA-Z]` of the diagnostic
regex. -/
def isAlphaAscii (c : Char) : Bool :=
  (('a' ≤ c) && (c ≤ 'z')) || (('A' ≤ c) && (c ≤ 'Z'))

/-- ASCII digit, the character class `\d` of the diagnostic regex. -/
def isDigitAscii (c : Char) : Bool :=
  ('0' ≤ c) && (c ≤ '9')

/-- Matches the tail `, \d+` of the diagnostic regex at the head of the
character list, greedily taking the digits; returns the matched
characters and the remainder. -/
def matchDiagTail : List Char → Option (List Char × List Char)
  | ',' :: ' ' :: rest =>
    let ds := rest.takeWhile isDigitAscii
    if ds.isEmpty then none
    else some (',' :: ' ' :: ds, rest.drop ds.length)
  | _ => none

/-- Matches the regex `[a-zA-Z]{1,2}, \d+` at the head of the character
list with the usual greedy-with-backtracking semantics: two letters are
tried before one. -/
def matchDiagPattern : List Char → Option (List Char × List Char)
  | c1 :: c2 :: rest =>
    if isAlphaAscii c1 then
      if isAlphaAscii c2 then
        match matchDiagTail rest with
        | some (mt, r) => some (c1 :: c2 :: mt, r)
        | none =>
          match matchDiagTail (c2 :: rest) with
          | some (mt, r) => some (c1 :: mt, r)
          | none => none
      else
        match matchDiagTail (c2 :: rest) with
        | some (mt, r) => some (c1 :: mt, r)
        | none => none
    else none
  | _ => none

/-- `re.findall('[a-zA-Z]{1,2}, \d+', log)`: scan left to right, taking
non-overlapping matches.  Fuel is the number of characters still
scannable; each step consumes at least one character, so passing the
input length makes the fuel never run out. -/
def reFindallDiag : Nat → List Char → List (List Char)
  | 0, _ => []
  | _, [] => []
  | fuel + 1, c :: rest =>
    match matchDiagPattern (c :: rest) with
    | some (mt, r) => mt :: reFindallDiag fuel r
    | none => reFindallDiag fuel rest

/-- Splits a character list on a separator character, keeping empty
groups, like Python `str.split` with an explicit separator. -/
def splitChar (sep : Char) : List Char → List (List Char)
  | [] => [[]]
  | x :: xs =>
    if x = sep then [] :: splitChar sep xs
    else
      match splitChar sep xs with
      | g :: gs => (x :: g) :: gs
      | [] => [[x]]

/-- Digits-to-number accumulator for Python `int` on the digit run the
diagnostic regex guarantees. -/
def natOfDigits (cs : List Char) : Nat :=
  cs.foldl (fun n c => n * 10 + (c.toNat - 48)) 0

/-- The diagnose step of `_fix_molecule`: run the regex findall on the
accumulated stderr log; no match means unrecoverable failure; otherwise
take the first match, split it on the comma into the element symbol and
the valence number (`int` of the stripped digit part — the regex
guarantees the digits, so the fallthrough branch is unreachable). -/
def extractDiagnostic (log : String) : Option (String × Nat) :=
  match reFindallDiag log.length log.data with
  | [] => none
  | f :: _ =>
    match splitChar ',' f with
    | p0 :: p1 :: _ =>
      some (p0.asString, natOfDigits (p1.dropWhile (fun c => c = ' ')))
    | _ => none

/-- The valence contribution of one bond to atom `i`, after RDKit: order
1/2/3 for single/double/triple; a dative bond contributes nothing to its
begin (donor) atom and one to its end atom. -/
def valenceContrib (bd : Bond) (i : Nat) : Nat :=
  if bd.a = i ∨ bd.b = i then
    match bd.btype with
    | BondType.single => 1
    | BondType.double => 2
    | BondType.triple => 3
    | BondType.dative => if bd.a = i then 0 else 1
  else 0

/-- RDKit `GetExplicitValence` over the current graph: the sum of the
valence contributions of the incident bonds (the parsed CCD graphs carry
their hydrogens as explicit atoms, so no explicit-H count is added). -/
def explicitValence (m : Mol) (i : Nat) : Nat :=
  (m.bonds.map (fun bd => valenceContrib bd i)).sum

/-- RDKit `Bond.SetBondType` through `GetBondBetweenAtoms(i, j)`: rewrite
the type of the edge on the unordered pair `{i, j}`, keeping its
direction. -/
def setBondType (m : Mol) (i j : Nat) (bt : BondType) : Mol :=
  { m with
    bonds := m.bonds.map fun bd =>
      if (bd.a = i ∧ bd.b = j) ∨ (bd.a = j ∧ bd.b = i) then { bd with btype := bt } else bd }

/-- RDKit `SetFormalCharge` via get-then-set with an increment: add
`delta` to the formal charge of atom `i`. -/
def updateCharge (m : Mol) (i : Nat) (delta : Int) : Mol :=
  { m with
    atoms := m.atoms.mapIdx fun k at0 =>
      if k = i then { at0 with charge := at0.charge + delta } else at0 }

/-- The body of the repair loop of `_fix_molecule` for one located
(metal, offending atom) pair: set the connecting bond's type to
`BondType.SINGLE` (the line under the comment "change the bond type to
dative"), then, if the offending atom's explicit valence equals the
diagnosed valence, add +1 to its formal charge and -1 to the metal's. -/
def repairPair (valency : Nat) (m : Mol) (p : Nat × Nat) : Mol :=
  let m1 := setBondType m p.1 p.2 BondType.single
  if explicitValence m1 p.2 = valency then
    updateCharge (updateCharge m1 p.2 1) p.1 (-1)
  else m1

/-- The repair step of `_fix_molecule` over all located pairs, in match
order. -/
def repairPairs (valency : Nat) (m : Mol) (ps : List (Nat × Nat)) : Mol :=
  ps.foldl (repairPair valency) m

/-- The external RDKit calls `_fix_molecule` makes each iteration, kept
abstract: `sanitize` is `Chem.SanitizeMol(rwmol, catchErrors=True)`
together with the text it writes to the captured stderr (`none` for
result 0, `some msg` for a failure that logged `msg`), and `cleanup` is
the `SANITIZE_CLEANUP`-only pass. -/
structure Oracle where
  sanitize : Mol → Option String
  cleanup : Mol → Mol

/-- Result of `_fix_molecule`: the returned boolean, the molecule state,
and how many validate-diagnose-repair iterations ran. -/
structure FixResult where
  success : Bool
  mol : Mol
  iterations : Nat
deriving DecidableEq

/-- The loop of `_fix_molecule`.  The Python is `attempts = 10` followed
by `while ((not success) and attempts >= 0)` with `attempts -= 1` at the
bottom and `success` never reassigned, i.e. a countdown admitting
`attempts` = 10, 9, ..., 0; it is embedded structurally with `fuel` the
number of loop-body entries still permitted (`fuel = attempts + 1`).
Each iteration: sanitize; on result 0 return `True`; otherwise append the
new stderr text to the accumulated log (`log.getvalue()` returns
everything written so far), diagnose from the whole log, give up with
`False` if nothing parses, locate the metal bonds, run the cleanup pass,
repair every located pair, and loop. -/
def fixGo (O : Oracle) : Nat → String → Mol → FixResult
  | 0, _, m => ⟨false, m, 0⟩
  | fuel + 1, log, m =>
    match O.sanitize m with
    | none => ⟨true, m, 1⟩
    | some msg =>
      let log2 := log ++ msg
      match extractDiagnostic log2 with
      | none => ⟨false, m, 1⟩
      | some ev =>
        let pairs := metalAtomBonds m ev.1
        let m1 := O.cleanup m
        let m2 := repairPairs ev.2 m1 pairs
        let r := fixGo O fuel log2 m2
        ⟨r.success, r.mol, r.iterations + 1⟩

/-- `Component._fix_molecule`: the loop entered with `attempts = 10`
(hence 10 + 1 permitted iterations) and an empty captured-stderr log. -/
def fixMolecule (O : Oracle) (m : Mol) : FixResult :=
  fixGo O (10 + 1) "" m

/-- `Component._sanitize` (slow path): run `_fix_molecule` on a working
copy; on failure return `False` with `self.mol` untouched; on success run
the finishing sequence (kekulization, chiral tags, stereochemistry —
abstracted as `finish`) and install the working copy, with any exception
caught and turned into `False`, again leaving `self.mol` untouched.  The
result is the returned boolean and the molecule the component ends up
holding. -/
def sanitizeComponent (O : Oracle) (finish : Mol → Except PyExc Mol) (m : Mol) :
    Bool × Mol :=
  let r := fixMolecule O m
  if r.success then
    match finish r.mol with
    | Except.ok m2 => (true, m2)
    | Except.error _ => (false, m)
  else (false, m)

/-- `Component._fix_molecule_fast`: locate metal–nitrogen bonds, run the
cleanup pass, set each located bond's type to `BondType.DATIVE`, adjust
the charges when the nitrogen's explicit valence is exactly 4, then
sanitize once and report whether that returned 0. -/
def fixMoleculeFast (O : Oracle) (m : Mol) : Bool × Mol :=
  let pairs := metalAtomBonds m "N"
  let m1 := O.cleanup m
  let m2 := pairs.foldl
    (fun mm p =>
      let mm1 := setBondType mm p.1 p.2 BondType.dative
      if explicitValence mm1 p.2 = 4 then
        updateCharge (updateCharge mm1 p.2 1) p.1 (-1)
      else mm1)
    m1
  ((O.sanitize m2).isNone, m2)

/-- `models.ReleaseStatus`: the enumeration members, `NOT_SET` added for
an unset status. -/
inductive ReleaseStatus
  | NOT_SET
  | DEL
  | HOLD
  | HPUB
  | OBS
  | REF_ONLY
  | REL
deriving DecidableEq

/-- Modelled from the spec: `ReleaseStatus.from_str` is called at
`ccd_reader.py:375` but `models.py` only declares the enumeration
members and no such classmethod appears under `src/`.  Per the spec, the
release-status text maps to the enumerated status via exact-match lookup
and an unrecognized or missing value maps to the unset member, never
raising. -/
def ReleaseStatus.fromStr (s : String) : ReleaseStatus :=
  if s = "DEL" then ReleaseStatus.DEL
  else if s = "HOLD" then ReleaseStatus.HOLD
  else if s = "HPUB" then ReleaseStatus.HPUB
  else if s = "OBS" then ReleaseStatus.OBS
  else if s = "REF_ONLY" then ReleaseStatus.REF_ONLY
  else if s = "REL" then ReleaseStatus.REL
  else ReleaseStatus.NOT_SET

/-- A `datetime.date` value. -/
structure DateV where
  year : Int
  month : Int
  day : Int
deriving DecidableEq

/-- Gregorian leap-year rule, as `datetime.date` validates days. -/
def isLeapYear (y : Int) : Bool :=
  (y % 4 == 0 && y % 100 != 0) || (y % 400 == 0)

/-- Days in a month, as `datetime.date` validates the day component. -/
def daysInMonth (y m : Int) : Int :=
  if m = 2 then (if isLeapYear y then 29 else 28)
  else if m = 4 ∨ m = 6 ∨ m = 9 ∨ m = 11 then 30
  else 31

/-- The `datetime.date` constructor: an out-of-range component raises
`ValueError`. -/
def dateNew (y m d : Int) : Except PyExc DateV :=
  if 1 ≤ y ∧ y ≤ 9999 ∧ 1 ≤ m ∧ m ≤ 12 ∧ 1 ≤ d ∧ d ≤ daysInMonth y m then
    Except.ok ⟨y, m, d⟩
  else Except.error PyExc.valueError

/-- ASCII whitespace trim on both ends, as Python `int`/`float` strip
their argument. -/
def pyStripSpace (cs : List Char) : List Char :=
  ((cs.dropWhile (fun c => c = ' ')).reverse.dropWhile (fun c => c = ' ')).reverse

/-- Python `int(str)`: optional sign then a nonempty digit run after
stripping whitespace; anything else raises `ValueError`. -/
def strToIntPy (s : String) : Except PyExc Int :=
  let cs := pyStripSpace s.data
  match cs with
  | '-' :: rest =>
    if !rest.isEmpty && rest.all isDigitAscii then Except.ok (-(natOfDigits rest : Int))
    else Except.error PyExc.valueError
  | '+' :: rest =>
    if !rest.isEmpty && rest.all isDigitAscii then Except.ok (natOfDigits rest : Int)
    else Except.error PyExc.valueError
  | rest =>
    if !rest.isEmpty && rest.all isDigitAscii then Except.ok (natOfDigits rest : Int)
    else Except.error PyExc.valueError

/-- Acceptance of a Python `float` literal (sign, digits with an
optional point, optional exponent).  The claims never consult the
numeric value, only whether `float(...)` raises, so the model keeps the
accepted literal as text rather than an inexact binary float. -/
def floatLitOk (s : String) : Bool :=
  let cs := (pyStripSpace s.data).map Char.toLower
  let cs := match cs with
    | '+' :: r => r
    | '-' :: r => r
    | r => r
  let mantOk : List Char → Bool := fun man =>
    match splitChar '.' man with
    | [a] => !a.isEmpty && a.all isDigitAscii
    | [a, b] =>
      (!a.isEmpty || !b.isEmpty) && a.all isDigitAscii && b.all isDigitAscii
    | _ => false
  let expOk : List Char → Bool := fun ex =>
    match ex with
    | '+' :: r => !r.isEmpty && r.all isDigitAscii
    | '-' :: r => !r.isEmpty && r.all isDigitAscii
    | r => !r.isEmpty && r.all isDigitAscii
  match splitChar 'e' cs with
  | [man] => mantOk man
  | [man, ex] => mantOk man && expOk ex
  | _ => false

/-- Python `str.strip` with a quote argument: drop the quote characters
from both ends, as the reader does on names and formulas. -/
def stripQuotes (s : String) : String :=
  (((s.data.dropWhile (fun c => c = '"')).reverse.dropWhile (fun c => c = '"')).reverse).asString

/-- Python `str.split("-")` (separator form: empty groups kept). -/
def pySplitDashStr (s : String) : List String :=
  (splitChar '-' s.data).map List.asString

/-- Python sequence indexing: out of range raises `IndexError`. -/
def pyIdx {α : Type} (l : List α) (i : Nat) : Except PyExc α :=
  match l.get? i with
  | some x => Except.ok x
  | none => Except.error PyExc.indexError

/-- A runtime Python value of the kinds the properties hand-off moves
around: a string, a `datetime.date`, or a `ReleaseStatus` member.  The
`CCDProperties` named tuple annotates its fields as `str`, but named
tuples do not enforce annotations, so the reader can (and does) store
the other kinds. -/
inductive PyVal
  | str (s : String)
  | pydate (d : DateV)
  | rel (r : ReleaseStatus)
deriving DecidableEq

/-- Attribute access `.split("-")` on a runtime value: only strings have
it; on a `datetime.date` or an enum member it raises `AttributeError`. -/
def pySplitDash (v : PyVal) : Except PyExc (List String) :=
  match v with
  | PyVal.str s => Except.ok (pySplitDashStr s)
  | _ => Except.error PyExc.attributeError

/-- Python `int` applied to a runtime value. -/
def pyValToInt (v : PyVal) : Except PyExc Int :=
  match v with
  | PyVal.str s => strToIntPy s
  | _ => Except.error PyExc.typeError

/-- `models.CCDProperties`: the named tuple the reader builds, one field
per `_chem_comp` scalar. -/
structure CCDPropsV where
  id : PyVal
  name : PyVal
  formula : PyVal
  modified_date : PyVal
  pdbx_release_status : PyVal
  weight : PyVal
deriving DecidableEq

/-- The `_chem_comp` scalars of one data block after category
preprocessing (an absent column reads as the `?` marker), plus the block
name and whether the category is present at all. -/
structure CifBlock where
  bname : String
  present : Bool
  chem_id : String
  chem_name : String
  chem_formula : String
  formula_weight : String
  pdbx_release_status : String
  pdbx_modified_date : String
deriving DecidableEq

/-- `ccd_reader._parse_pdb_properties`: `None` when the `_chem_comp`
category is absent; otherwise split the modification date on dashes, map
a leading `?` to `date(1970, 1, 1)` and anything else through
`int`-per-component into the `date` constructor, map the release status
through `ReleaseStatus.from_str`, map a `?` weight to `0.0` and anything
else through `float`, and bundle the results (the date as the `date`
object, the status as the enum member) into `CCDProperties`. -/
def parsePdbProperties (b : CifBlock) : Except PyExc (Option CCDPropsV) := do
  if b.present then
    let modDate := pySplitDashStr b.pdbx_modified_date
    let p0 ← pyIdx modDate 0
    let d ←
      if p0 = "?" then pure (DateV.mk 1970 1 1)
      else do
        let y ← strToIntPy p0
        let p1 ← pyIdx modDate 1
        let mth ← strToIntPy p1
        let p2 ← pyIdx modDate 2
        let dd ← strToIntPy p2
        dateNew y mth dd
    let relStatus := ReleaseStatus.fromStr b.pdbx_release_status
    let w ←
      if b.formula_weight = "?" then pure "0.0"
      else if floatLitOk b.formula_weight then pure b.formula_weight
      else Except.error PyExc.valueError
    pure (some
      { id := PyVal.str b.chem_id,
        name := PyVal.str (stripQuotes b.chem_name),
        formula := PyVal.str (stripQuotes b.chem_formula),
        modified_date := PyVal.pydate d,
        pdbx_release_status := PyVal.rel relStatus,
        weight := PyVal.str w })
  else
    pure none

/-- `Enum.__getitem__` on `ReleaseStatus`, as `Properties.__init__` uses
it: the key is looked up in the member-name map, so only the exact member
name strings succeed; any other string — and any non-string key, such as
the `ReleaseStatus` member the reader actually passes — raises
`KeyError`. -/
def releaseStatusGetitem (v : PyVal) : Except PyExc ReleaseStatus :=
  match v with
  | PyVal.str s =>
    if s = "NOT_SET" then Except.ok ReleaseStatus.NOT_SET
    else if s = "DEL" then Except.ok ReleaseStatus.DEL
    else if s = "HOLD" then Except.ok ReleaseStatus.HOLD
    else if s = "HPUB" then Except.ok ReleaseStatus.HPUB
    else if s = "OBS" then Except.ok ReleaseStatus.OBS
    else if s = "REF_ONLY" then Except.ok ReleaseStatus.REF_ONLY
    else if s = "REL" then Except.ok ReleaseStatus.REL
    else Except.error PyExc.keyError
  | _ => Except.error PyExc.keyError

/-- The scalar state `Properties.__init__` ends up with. -/
structure PropertiesState where
  pdbx_release_status : ReleaseStatus
  idv : PyVal
  namev : PyVal
  formulav : PyVal
  modified_date : Option DateV
deriving DecidableEq

/-- `component.Properties.__init__` on the `CCDProperties` argument:
with `None` every field keeps its default (`NOT_SET`, empty strings, no
date); otherwise it calls `properties.modified_date.split('-')`, copies
the identifier fields, maps the status through
`ReleaseStatus[properties.pdbx_release_status]`, and rebuilds the date
with `date(int(...), int(...), int(...))` over the split parts. -/
def propertiesInit (props : Option CCDPropsV) : Except PyExc PropertiesState := do
  match props with
  | none =>
    pure ⟨ReleaseStatus.NOT_SET, PyVal.str "", PyVal.str "", PyVal.str "", none⟩
  | some p =>
    let modDate ← pySplitDash p.modified_date
    let relStatus ← releaseStatusGetitem p.pdbx_release_status
    let y ← pyIdx modDate 0 >>= strToIntPy
    let mth ← pyIdx modDate 1 >>= strToIntPy
    let dd ← pyIdx modDate 2 >>= strToIntPy
    let dt ← dateNew y mth dd
    pure ⟨relStatus, p.id, p.name, p.formula, some dt⟩

/-- The block loop of `ccd_reader.read_pdb_components_file`, abstracted
over `_parse_pdb_mmcif`.  Its `except CCDUtilsError` handler's only
statement is `logging.error(f"ERROR: Data block {n} not processed. ...")`
where no name `n` is in scope, so entering the handler raises
`NameError`; every other exception is not caught at all.  Either way the
local `result_bag` is lost and the exception propagates. -/
def readComponentsGo {α : Type} (parseBlock : CifBlock → Except PyExc α) :
    List (String × α) → List CifBlock → Except PyExc (List (String × α))
  | acc, [] => Except.ok acc
  | acc, blk :: bs =>
    match parseBlock blk with
    | Except.ok r => readComponentsGo parseBlock (acc ++ [(blk.bname, r)]) bs
    | Except.error PyExc.ccdUtilsError => Except.error PyExc.nameError
    | Except.error e => Except.error e

/-- `ccd_reader.read_pdb_components_file` (after the existence check on
the path): process the blocks in order into the identifier-keyed result
mapping. -/
def readPdbComponentsFile {α : Type} (parseBlock : CifBlock → Except PyExc α)
    (blocks : List CifBlock) : Except PyExc (List (String × α)) :=
  readComponentsGo parseBlock [] blocks

/-- `models.ConformerType`. -/
inductive ConformerType
  | Ideal
  | Model
  | Depiction
  | Computed
  | AllConformers
deriving DecidableEq

/-- `Component.__init__`'s `conformers_mapping` dictionary: ideal 0,
model 1 only when the molecule holds exactly two conformers and the
sentinel 1000 otherwise, computed 2000, all-conformers -1. -/
def conformersMapping (m : Mol) : List (ConformerType × Int) :=
  [(ConformerType.AllConformers, -1),
   (ConformerType.Ideal, 0),
   (ConformerType.Model, if m.conformers.length = 2 then 1 else 1000),
   (ConformerType.Computed, 2000)]

/-- Python dict lookup: a missing key raises `KeyError`. -/
def dictGet (d : List (ConformerType × Int)) (k : ConformerType) : Except PyExc Int :=
  match d.find? (fun p => decide (p.1 = k)) with
  | some p => Except.ok p.2
  | none => Except.error PyExc.keyError

/-- RDKit `Mol.GetConformer`: id -1 returns the first stored conformer;
otherwise the conformer with the given id; a missing conformer raises
`ValueError` ("Bad Conformer Id"). -/
def getConformer (m : Mol) (cid : Int) : Except PyExc Conformer :=
  if cid = -1 then
    match m.conformers with
    | c :: _ => Except.ok c
    | [] => Except.error PyExc.valueError
  else
    match m.conformers.find? (fun c => decide (c.cid = cid)) with
    | some c => Except.ok c
    | none => Except.error PyExc.valueError

/-- `Component.has_degenerated_conformer`: look the conformer type up in
the mapping, fetch that conformer, count the atoms sitting exactly at
the sentinel coordinate (0, 0, 0), and report whether more than one
does. -/
def hasDegeneratedConformer (m : Mol) (t : ConformerType) : Except PyExc Bool := do
  let cid ← dictGet (conformersMapping m) t
  let conf ← getConformer m cid
  let counter :=
    (conf.positions.filter (fun p => decide (p = ((0 : Rat), (0 : Rat), (0 : Rat))))).length
  pure (decide (counter > 1))

/-- A two-atom graph (carbon, oxygen) with no bonds, as built by the atom
pass for atom rows named C and O. -/
def molCO : Mol :=
  { atoms := [{ aname := "C", element := "C", atomicNum := 6 },
              { aname := "O", element := "O", atomicNum := 8 }] }

/-- The atom-name table matching `molCO`. -/
def atomIdsCO : List String := ["C", "O"]

/-- Carbon bonded to an explicit hydrogen. -/
def molCH : Mol :=
  { atoms := [{ aname := "C1", element := "C", atomicNum := 6 },
              { aname := "H1", element := "H", atomicNum := 1 }],
    bonds := [⟨0, 1, BondType.single⟩] }

/-- A lone carbon with no hydrogen neighbor. -/
def molC : Mol :=
  { atoms := [{ aname := "C1", element := "C", atomicNum := 6 }] }

/-- An iron–nitrogen coordination complex misencoded covalently: Fe=N
double bond plus N≡C triple bond, all formal charges zero.  After the
metal bond is re-typed to order one the nitrogen's explicit valence is
1 + 3 = 4, the valence its element cannot carry uncharged, matching the
diagnostic `N, 4`. -/
def molFeN : Mol :=
  { atoms := [{ aname := "FE", element := "Fe", atomicNum := 26 },
              { aname := "N1", element := "N", atomicNum := 7 },
              { aname := "C1", element := "C", atomicNum := 6 }],
    bonds := [⟨0, 1, BondType.double⟩, ⟨1, 2, BondType.triple⟩] }

/-- A validator that reports the valence failure `N, 4` on every check
and a cleanup pass that changes nothing: the repair loop never converges
on it. -/
def failOracle : Oracle :=
  ⟨fun _ => some "N, 4", fun m => m⟩

/-- A data block whose modification date carries the unknown marker. -/
def blockUnknownDate : CifBlock :=
  { bname := "ADE", present := true, chem_id := "ADE", chem_name := "ADENINE",
    chem_formula := "C5 H5 N5", formula_weight := "135.13",
    pdbx_release_status := "REL", pdbx_modified_date := "?" }

/-- A data block whose modification date has an out-of-range month. -/
def blockBadDate : CifBlock :=
  { blockUnknownDate with bname := "BAD", pdbx_modified_date := "2011-13-04" }

/-- A well-formed data block. -/
def blockOkDate : CifBlock :=
  { blockUnknownDate with bname := "OK2", pdbx_modified_date := "2011-06-04" }

/-- The `CCDProperties` value `_parse_pdb_properties` builds for
`blockUnknownDate`: the epoch sentinel date as a `datetime.date` object
and the release status as an enum member. -/
def propsUnknownDate : CCDPropsV :=
  { id := PyVal.str "ADE", name := PyVal.str "ADENINE",
    formula := PyVal.str "C5 H5 N5",
    modified_date := PyVal.pydate ⟨1970, 1, 1⟩,
    pdbx_release_status := PyVal.rel ReleaseStatus.REL,
    weight := PyVal.str "135.13" }

/-- Each permitted loop entry accounts for at most one iteration, so the
iteration count of the repair loop is bounded by its fuel. -/
theorem fixGo_iterations_le (O : Oracle) :
    ∀ (fuel : Nat) (log : String) (m : Mol), (fixGo O fuel log m).iterations ≤ fuel
  | 0, _, _ => Nat.le_refl 0
  | fuel + 1, log, m => by
    simp only [fixGo]
    cases hS : O.sanitize m with
    | none => simp
    | some msg =>
      dsimp only
      cases hE : extractDiagnostic (log ++ msg) with
      | none => simp [hE]
      | some ev =>
        dsimp only
        have h := fixGo_iterations_le O fuel (log ++ msg)
          (repairPairs ev.2 (O.cleanup m) (metalAtomBonds m ev.1))
        omega

/-- Index-wise description of the implicit-hydrogen update pass. -/
theorem setNoImplicitFrom_get (m : Mol) :
    ∀ (l : List Atom) (k i : Nat),
      (setNoImplicitFrom m k l).get? i =
        (l.get? i).map fun a =>
          if a.atomicNum = 1 then a
          else { a with noImplicit := !hasExplicitHNeighbor m (k + i) }
  | [], _, _ => by simp [setNoImplicitFrom]
  | a :: rest, k, 0 => by simp [setNoImplicitFrom]
  | a :: rest, k, i + 1 => by
    simp only [setNoImplicitFrom, List.get?]
    rw [setNoImplicitFrom_get m rest (k + 1) i,
      show k + 1 + i = k + (i + 1) from by omega]

/-- A successful `AddBond` presupposes a fresh unordered pair and appends
exactly one edge. -/
theorem addBond_ok (m : Mol) (i j : Nat) (o : Option BondType) (m2 : Mol)
    (h : addBond m i j o = Except.ok m2) :
    hasEdge m i j = false ∧
      ∃ bt, o = some bt ∧ m2 = { m with bonds := m.bonds ++ [⟨i, j, bt⟩] } := by
  unfold addBond at h
  cases o with
  | none => simp at h
  | some bt =>
    dsimp only at h
    by_cases he : hasEdge m i j = true
    · rw [if_pos he] at h
      exact absurd h (by simp)
    · rw [if_neg he] at h
      simp only [Except.ok.injEq] at h
      exact ⟨by simpa using he, bt, rfl, h.symm⟩

/-- A successful `try` body of the bond loop is a successful
`AddBond`. -/
theorem bondRowBody_snd_ok (atomIds : List String) (m : Mol) (prev : BondLocals)
    (row : BondRow) (m2 : Mol)
    (h : (bondRowBody atomIds m prev row).2 = Except.ok m2) :
    ∃ i j o, addBond m i j o = Except.ok m2 := by
  unfold bondRowBody at h
  cases hx : listIndex atomIds row.atomId1 with
  | none => rw [hx] at h; simp at h
  | some i1 =>
    rw [hx] at h
    cases hy : listIndex atomIds row.atomId2 with
    | none => rw [hy] at h; simp at h
    | some i2 =>
      rw [hy] at h
      exact ⟨i1, i2, bondPdbOrder row.valueOrder, h⟩

/-- Appending an edge on a pair the graph does not yet connect preserves
the duplicate-edge invariant. -/
theorem noDup_addBond (m : Mol) (i j : Nat) (bt : BondType)
    (h : noDupEdges m) (he : hasEdge m i j = false) :
    noDupEdges { m with bonds := m.bonds ++ [⟨i, j, bt⟩] } := by
  unfold noDupEdges at h ⊢
  rw [List.pairwise_append]
  refine ⟨h, List.pairwise_singleton _ _, ?_⟩
  intro bd hbd b2 hb2
  simp only [List.mem_singleton] at hb2
  subst hb2
  simp only [hasEdge, List.any_eq_false, decide_eq_true_eq] at he
  intro hs
  exact he bd hbd hs

/-- One iteration of the bond loop preserves the duplicate-edge
invariant. -/
theorem parseBondRow_noDup (atomIds : List String) (st : BondParseState) (row : BondRow)
    (st2 : BondParseState) (h : noDupEdges st.mol)
    (hok : parseBondRow atomIds st row = Except.ok st2) :
    noDupEdges st2.mol := by
  unfold parseBondRow at hok
  split at hok
  · next lcl m2 heq =>
    simp only [Except.ok.injEq] at hok
    obtain ⟨i, j, o, hadd⟩ :=
      bondRowBody_snd_ok atomIds st.mol st.locals row m2 (by rw [heq])
    obtain ⟨he, bt, _, hm2⟩ := addBond_ok st.mol i j o m2 hadd
    rw [← hok, hm2]
    exact noDup_addBond st.mol i j bt h he
  · next lcl heq =>
    split at hok
    · next s1 s2 h1 h2 =>
      simp only [Except.ok.injEq] at hok
      rw [← hok]
      exact h
    · next hns => exact absurd hok (by simp)
  · next lcl heq =>
    split at hok
    · next s1 s2 h1 h2 =>
      simp only [Except.ok.injEq] at hok
      rw [← hok]
      exact h
    · next hns => exact absurd hok (by simp)
  · next lcl e hne1 hne2 heq => exact absurd hok (by simp)

/-- The whole bond loop preserves the duplicate-edge invariant, whether
it finishes or escapes with an exception. -/
theorem parseGo_noDup (atomIds : List String) :
    ∀ (rows : List BondRow) (st : BondParseState),
      noDupEdges st.mol → noDupEdges (parsePdbBondsGo atomIds st rows).1
  | [], _, h => h
  | row :: rows, st, h => by
    unfold parsePdbBondsGo
    cases hr : parseBondRow atomIds st row with
    | error e => exact h
    | ok st2 =>
      exact parseGo_noDup atomIds rows st2
        (parseBondRow_noDup atomIds st row st2 h hr)

/-- A caught iteration steps the loop to the updated state. -/
theorem parseGo_cons_ok (atomIds : List String) (st st2 : BondParseState)
    (row : BondRow) (rows : List BondRow)
    (h : parseBondRow atomIds st row = Except.ok st2) :
    parsePdbBondsGo atomIds st (row :: rows) = parsePdbBondsGo atomIds st2 rows := by
  conv_lhs => unfold parsePdbBondsGo
  rw [h]

/-- An uncaught exception stops the loop at the current state. -/
theorem parseGo_cons_err (atomIds : List String) (st : BondParseState)
    (row : BondRow) (rows : List BondRow) (e : PyExc)
    (h : parseBondRow atomIds st row = Except.error e) :
    parsePdbBondsGo atomIds st (row :: rows) = (st.mol, st.errors, some e) := by
  unfold parsePdbBondsGo
  rw [h]

/-- A bond row with resolvable endpoints, a recognized order and a fresh
pair adds exactly its edge. -/
theorem parseBondRow_add (atomIds : List String) (st : BondParseState)
    (n1 n2 o : String) (i1 i2 : Nat) (bt : BondType)
    (h1 : listIndex atomIds n1 = some i1) (h2 : listIndex atomIds n2 = some i2)
    (h3 : bondPdbOrder o = some bt) (h4 : hasEdge st.mol i1 i2 = false) :
    parseBondRow atomIds st ⟨n1, n2, o⟩ =
      Except.ok ⟨{ st.mol with bonds := st.mol.bonds ++ [⟨i1, i2, bt⟩] }, st.errors,
        ⟨some n1, some n2⟩⟩ := by
  unfold parseBondRow bondRowBody
  simp [h1, h2, h3, addBond, h4]

/-- A bond row on an already connected pair trips the `RuntimeError`
handler: the graph is unchanged and a duplicate-bond error string naming
both endpoints is appended. -/
theorem parseBondRow_dup (atomIds : List String) (st : BondParseState)
    (n1 n2 o : String) (i1 i2 : Nat) (bt : BondType)
    (h1 : listIndex atomIds n1 = some i1) (h2 : listIndex atomIds n2 = some i2)
    (h3 : bondPdbOrder o = some bt) (h4 : hasEdge st.mol i1 i2 = true) :
    parseBondRow atomIds st ⟨n1, n2, o⟩ =
      Except.ok ⟨st.mol, st.errors ++ ["Duplicit bond " ++ n1 ++ " - " ++ n2],
        ⟨some n1, some n2⟩⟩ := by
  unfold parseBondRow bondRowBody
  simp [h1, h2, h3, addBond, h4, readLocal]

/-- A bond row with resolvable endpoints but an unrecognized order feeds
`None` to `AddBond` and escapes with the `TypeError` neither handler
catches. -/
theorem parseBondRow_badOrder (atomIds : List String) (st : BondParseState)
    (row : BondRow) (i1 i2 : Nat)
    (h1 : listIndex atomIds row.atomId1 = some i1)
    (h2 : listIndex atomIds row.atomId2 = some i2)
    (h3 : bondPdbOrder row.valueOrder = none) :
    parseBondRow atomIds st row = Except.error PyExc.typeError := by
  unfold parseBondRow bondRowBody
  simp [h1, h2, h3, addBond]

/-- Appending an edge on a pair makes the pair connected. -/
theorem hasEdge_append (m : Mol) (i j : Nat) (bt : BondType) :
    hasEdge { m with bonds := m.bonds ++ [⟨i, j, bt⟩] } i j = true := by
  simp [hasEdge]

/-- The fast single-pass variant `_fix_molecule_fast` does set the
located metal–nitrogen bond to the dative type on the same complex,
showing what the iterative variant's "change the bond type to dative"
comment intends. -/
theorem fixMoleculeFast_sets_dative :
    ((fixMoleculeFast ⟨fun _ => none, fun mm => mm⟩ molFeN).2).bonds.get? 0 =
      some ⟨0, 1, BondType.dative⟩ := by
  decide

/-- C1: on the Fe=N/N≡C complex with the diagnosed pair (N, 4), the
located (metal, ligand) pair is (0, 1); the repair step sets the
connecting bond's type to `SINGLE` — an ordinary covalent bond, not the
coordinate/dative type its own comment announces — and, since the
ligand's explicit valence still equals the diagnosed valence 4, moves
the charges: ligand +1, metal -1, third atom untouched. -/
theorem c1_repair_sets_single_not_dative :
    extractDiagnostic "Explicit valence for atom # 1 N, 4, is greater than permitted" =
      some ("N", 4) ∧
    metalAtomBonds molFeN "N" = [(0, 1)] ∧
    (repairPairs 4 molFeN [(0, 1)]).bonds.get? 0 = some ⟨0, 1, BondType.single⟩ ∧
    BondType.single ≠ BondType.dative ∧
    chargeAt (repairPairs 4 molFeN [(0, 1)]) 1 = 1 ∧
    chargeAt (repairPairs 4 molFeN [(0, 1)]) 0 = -1 ∧
    chargeAt (repairPairs 4 molFeN [(0, 1)]) 2 = 0 := by
  decide

/-- C2 (counterexample): against a validator that fails with an
extractable diagnostic on every check, `_fix_molecule` runs its
validate-diagnose-repair body 11 times, not at most 10; `_sanitize` then
reports failure and hands the caller the original molecule, discarding
the working copy's repairs. -/
theorem c2_budget_counterexample :
    (fixMolecule failOracle molFeN).iterations = 11 ∧
    ¬ (fixMolecule failOracle molFeN).iterations ≤ 10 ∧
    sanitizeComponent failOracle (fun mm => Except.ok mm) molFeN = (false, molFeN) ∧
    (fixMolecule failOracle molFeN).mol ≠ molFeN := by
  decide

/-- C2 (amended): for every validator behaviour and input graph the
repair loop performs at most 11 iterations (`attempts` counts down from
10 and the loop body runs while `attempts >= 0`), and whenever
`_fix_molecule` reports failure, `_sanitize` returns the sanitized-false
result with the component's molecule left as the caller's graph, raising
nothing. -/
theorem c2_amended_budget (O : Oracle) (finish : Mol → Except PyExc Mol) (m : Mol) :
    (fixMolecule O m).iterations ≤ 11 ∧
    ((fixMolecule O m).success = false → sanitizeComponent O finish m = (false, m)) := by
  constructor
  · exact fixGo_iterations_le O 11 "" m
  · intro h
    simp [sanitizeComponent, h]

/-- Witness for C2's amended theorem at the constantly failing validator
and the metal complex. -/
theorem c2_amended_budget_witness :
    (fixMolecule failOracle molFeN).iterations ≤ 11 ∧
    sanitizeComponent failOracle (fun mm => Except.ok mm) molFeN = (false, molFeN) :=
  ⟨(c2_amended_budget failOracle (fun mm => Except.ok mm) molFeN).1,
   (c2_amended_budget failOracle (fun mm => Except.ok mm) molFeN).2 (by decide)⟩

/-- C3 (counterexample): the carbon bonded to an explicit hydrogen comes
out with `noImplicit = false` (still eligible for implicit-hydrogen
inference), not marked forbidden as claimed, while the hydrogen-free
lone carbon comes out with `noImplicit = true`. -/
theorem c3_policy_counterexample :
    (handleImplicitHydrogens molCH).atoms.map Atom.noImplicit = [false, false] ∧
    ¬ ((handleImplicitHydrogens molCH).atoms.get? 0).map Atom.noImplicit = some true ∧
    (handleImplicitHydrogens molC).atoms.map Atom.noImplicit = [true] := by
  decide

/-- C3 (amended): after the pass every non-hydrogen atom carries
`noImplicit = true` exactly when it has no explicitly bonded hydrogen
neighbor (so an atom with a hydrogen neighbor stays eligible for
automatic inference), and hydrogen atoms are left untouched. -/
theorem c3_amended_policy (m : Mol) (i : Nat) (a : Atom)
    (h : m.atoms.get? i = some a) :
    (handleImplicitHydrogens m).atoms.get? i =
      some (if a.atomicNum = 1 then a
            else { a with noImplicit := !hasExplicitHNeighbor m i }) := by
  unfold handleImplicitHydrogens
  rw [setNoImplicitFrom_get m m.atoms 0 i, h]
  simp

/-- Witness for C3's amended theorem at the explicit C–H pair. -/
theorem c3_amended_policy_witness :
    (handleImplicitHydrogens molCH).atoms.get? 0 =
      some (if (⟨"C1", "C", 6, 0, false⟩ : Atom).atomicNum = 1
            then (⟨"C1", "C", 6, 0, false⟩ : Atom)
            else { (⟨"C1", "C", 6, 0, false⟩ : Atom) with
                     noImplicit := !hasExplicitHNeighbor molCH 0 }) :=
  c3_amended_policy molCH 0 ⟨"C1", "C", 6, 0, false⟩ (by decide)

/-- C4: a bond row whose first endpoint name resolves to no atom never
reaches the error string: on the first row the handler's f-string reads
the still-unassigned local `atom_2` and the resulting `NameError`
escapes with nothing recorded; on a later row the handler fires but
names the previous row's second endpoint (O) instead of the current
row's (Q). -/
theorem c4_first_endpoint_name_error :
    parsePdbBonds atomIdsCO molCO [⟨"X9", "O", "SING"⟩] =
      (molCO, [], some PyExc.nameError) ∧
    parsePdbBonds atomIdsCO molCO [⟨"C", "O", "SING"⟩, ⟨"X9", "Q", "SING"⟩] =
      ({ molCO with bonds := [⟨0, 1, BondType.single⟩] },
       ["Error perceiving X9 - O bond in _chem_comp_bond"], none) := by
  decide

/-- C5 (counterexample): a bond row whose order text is AROM adds no
edge and records no error, but the `TypeError` from `AddBond(None)`
escapes to the caller and the following well-formed row is never
processed. -/
theorem c5_unknown_order_counterexample :
    parsePdbBonds atomIdsCO molCO [⟨"C", "O", "AROM"⟩, ⟨"C", "O", "SING"⟩] =
      (molCO, [], some PyExc.typeError) := by
  decide

/-- C5 (amended): any order text other than SING/DOUB/TRIP maps to no
bond order; a row carrying such an order (with resolvable endpoints)
makes the `AddBond` call raise a `TypeError` that neither handler
catches, so no edge is added, no error string is recorded, the exception
propagates to the caller, and the remaining rows are not processed. -/
theorem c5_amended_unknown_order :
    (∀ v : String, v ≠ "SING" → v ≠ "DOUB" → v ≠ "TRIP" → bondPdbOrder v = none) ∧
    (∀ (atomIds : List String) (st : BondParseState) (row : BondRow) (i1 i2 : Nat),
      listIndex atomIds row.atomId1 = some i1 →
      listIndex atomIds row.atomId2 = some i2 →
      bondPdbOrder row.valueOrder = none →
      parseBondRow atomIds st row = Except.error PyExc.typeError) ∧
    (∀ (atomIds : List String) (st : BondParseState) (row : BondRow) (rows : List BondRow),
      parseBondRow atomIds st row = Except.error PyExc.typeError →
      parsePdbBondsGo atomIds st (row :: rows) =
        (st.mol, st.errors, some PyExc.typeError)) := by
  refine ⟨?_, ?_, ?_⟩
  · intro v hv1 hv2 hv3
    unfold bondPdbOrder
    rw [if_neg hv1, if_neg hv2, if_neg hv3]
  · intro atomIds st row i1 i2 h1 h2 h3
    exact parseBondRow_badOrder atomIds st row i1 i2 h1 h2 h3
  · intro atomIds st row rows h
    exact parseGo_cons_err atomIds st row rows PyExc.typeError h

/-- Witness for C5's amended theorem at the AROM row over the C/O atom
table. -/
theorem c5_amended_unknown_order_witness :
    bondPdbOrder "AROM" = none ∧
    parseBondRow atomIdsCO ⟨molCO, [], ⟨none, none⟩⟩ ⟨"C", "O", "AROM"⟩ =
      Except.error PyExc.typeError ∧
    parsePdbBondsGo atomIdsCO ⟨molCO, [], ⟨none, none⟩⟩
        [⟨"C", "O", "AROM"⟩, ⟨"C", "O", "SING"⟩] =
      (molCO, [], some PyExc.typeError) :=
  ⟨c5_amended_unknown_order.1 "AROM" (by decide) (by decide) (by decide),
   c5_amended_unknown_order.2.1 atomIdsCO ⟨molCO, [], ⟨none, none⟩⟩ ⟨"C", "O", "AROM"⟩ 0 1
     (by decide) (by decide) (by decide),
   c5_amended_unknown_order.2.2 atomIdsCO ⟨molCO, [], ⟨none, none⟩⟩ ⟨"C", "O", "AROM"⟩
     [⟨"C", "O", "SING"⟩]
     (c5_amended_unknown_order.2.1 atomIdsCO ⟨molCO, [], ⟨none, none⟩⟩ ⟨"C", "O", "AROM"⟩ 0 1
       (by decide) (by decide) (by decide))⟩

/-- C6: the bond pass keeps the graph free of duplicate edges on any
input, and on two rows over the same resolvable pair with recognized
orders the first adds the edge, the second adds nothing and appends the
duplicate-bond error naming both endpoints, the edge count stays at one,
and no exception escapes. -/
theorem c6_no_duplicate_edges :
    (∀ (atomIds : List String) (m : Mol) (rows : List BondRow),
      noDupEdges m → noDupEdges (parsePdbBonds atomIds m rows).1) ∧
    (∀ (atomIds : List String) (m : Mol) (n1 n2 o1 o2 : String) (i1 i2 : Nat)
      (b1 b2 : BondType),
      listIndex atomIds n1 = some i1 → listIndex atomIds n2 = some i2 →
      bondPdbOrder o1 = some b1 → bondPdbOrder o2 = some b2 →
      hasEdge m i1 i2 = false →
      parsePdbBonds atomIds m [⟨n1, n2, o1⟩, ⟨n1, n2, o2⟩] =
        ({ m with bonds := m.bonds ++ [⟨i1, i2, b1⟩] },
         ["Duplicit bond " ++ n1 ++ " - " ++ n2], none)) := by
  constructor
  · intro atomIds m rows h
    exact parseGo_noDup atomIds rows ⟨m, [], ⟨none, none⟩⟩ h
  · intro atomIds m n1 n2 o1 o2 i1 i2 b1 b2 h1 h2 h3 h4 h5
    unfold parsePdbBonds
    rw [parseGo_cons_ok atomIds _ _ _ _
        (parseBondRow_add atomIds ⟨m, [], ⟨none, none⟩⟩ n1 n2 o1 i1 i2 b1 h1 h2 h3 h5),
      parseGo_cons_ok atomIds _ _ _ _
        (parseBondRow_dup atomIds _ n1 n2 o2 i1 i2 b2 h1 h2 h4
          (hasEdge_append m i1 i2 b1))]
    rfl

/-- Witness for C6 at two rows both bonding C to O. -/
theorem c6_no_duplicate_edges_witness :
    noDupEdges (parsePdbBonds atomIdsCO molCO
      [⟨"C", "O", "TRIP"⟩, ⟨"C", "O", "SING"⟩]).1 ∧
    parsePdbBonds atomIdsCO molCO [⟨"C", "O", "TRIP"⟩, ⟨"C", "O", "SING"⟩] =
      ({ molCO with bonds := [⟨0, 1, BondType.triple⟩] },
       ["Duplicit bond C - O"], none) :=
  ⟨c6_no_duplicate_edges.1 atomIdsCO molCO [⟨"C", "O", "TRIP"⟩, ⟨"C", "O", "SING"⟩]
     List.Pairwise.nil,
   c6_no_duplicate_edges.2 atomIdsCO molCO "C" "O" "TRIP" "SING" 0 1
     BondType.triple BondType.single rfl rfl rfl rfl (by decide)⟩

/-- C7: one record's fatal failure aborts the whole batch instead of
being logged and skipped: a block whose modification date has month 13
raises a `ValueError` the loop does not catch, losing the well-formed
block that follows; and even a failure of the `CCDUtilsError` kind the
handler is written for aborts, because the handler's log f-string reads
the undefined name `n` and raises `NameError`. -/
theorem c7_batch_aborts :
    readPdbComponentsFile parsePdbProperties [blockBadDate, blockOkDate] =
      Except.error PyExc.valueError ∧
    readPdbComponentsFile
        (fun b => if b.bname = "BAD"
          then (Except.error PyExc.ccdUtilsError : Except PyExc (Option CCDPropsV))
          else parsePdbProperties b)
        [blockBadDate, blockOkDate] =
      Except.error PyExc.nameError ∧
    parsePdbProperties blockOkDate =
      Except.ok (some { propsUnknownDate with
        modified_date := PyVal.pydate ⟨2011, 6, 4⟩ }) := by
  decide

/-- C8: the spec-modelled `ReleaseStatus.from_str` is total and sends
the unknown marker and unrecognized text to `NOT_SET`; but the re-lookup
`ReleaseStatus[...]` in `Properties.__init__` raises `KeyError` on any
text outside the exact member names — including the missing-value marker
`?` — and on the enum member the reader actually stores in
`CCDProperties`, so the status hand-off raises instead of mapping to
unset. -/
theorem c8_release_status_lookup_raises :
    ReleaseStatus.fromStr "?" = ReleaseStatus.NOT_SET ∧
    ReleaseStatus.fromStr "RELEASED" = ReleaseStatus.NOT_SET ∧
    ReleaseStatus.fromStr "REL" = ReleaseStatus.REL ∧
    releaseStatusGetitem (PyVal.str "?") = Except.error PyExc.keyError ∧
    propertiesInit (some { propsUnknownDate with
        modified_date := PyVal.str "2011-06-04",
        pdbx_release_status := PyVal.str "?" }) =
      Except.error PyExc.keyError ∧
    releaseStatusGetitem (PyVal.rel ReleaseStatus.REL) = Except.error PyExc.keyError := by
  decide

/-- C9: for the record whose modification date is the unknown marker the
reader does compute the epoch sentinel `date(1970, 1, 1)` into
`CCDProperties`, but `Properties.__init__` then calls `.split('-')` on
that `date` object and raises `AttributeError`, so the component's
modification date never resolves; an out-of-range date component (month
13) is a fatal `ValueError` in the reader, as claimed. -/
theorem c9_unknown_date_component_crash :
    parsePdbProperties blockUnknownDate = Except.ok (some propsUnknownDate) ∧
    propsUnknownDate.modified_date = PyVal.pydate ⟨1970, 1, 1⟩ ∧
    propertiesInit (some propsUnknownDate) = Except.error PyExc.attributeError ∧
    parsePdbProperties blockBadDate = Except.error PyExc.valueError := by
  decide

/-- C10: on a component whose molecule does not hold exactly two
conformers (the builder stores either two, with ids 0 and 1, or none),
the conformer-id mapping sends Model to 1000 and Computed to 2000 — ids
no stored conformer carries — while Ideal maps to 0; consequently the
degenerate-conformer check invoked with Model raises (`ValueError` from
`GetConformer`) instead of returning a result. -/
theorem c10_conformer_mapping (m : Mol)
    (hids : ∀ c ∈ m.conformers, c.cid = 0 ∨ c.cid = 1)
    (hlen : m.conformers.length ≠ 2) :
    dictGet (conformersMapping m) ConformerType.Model = Except.ok 1000 ∧
    dictGet (conformersMapping m) ConformerType.Computed = Except.ok 2000 ∧
    dictGet (conformersMapping m) ConformerType.Ideal = Except.ok 0 ∧
    (∀ c ∈ m.conformers, c.cid ≠ 1000 ∧ c.cid ≠ 2000) ∧
    hasDegeneratedConformer m ConformerType.Model = Except.error PyExc.valueError := by
  have hfind : m.conformers.find? (fun c => decide (c.cid = (1000 : Int))) = none := by
    rw [List.find?_eq_none]
    intro c hc
    rcases hids c hc with h | h <;> simp [h]
  refine ⟨?_, ?_, ?_, ?_, ?_⟩
  · simp [dictGet, conformersMapping, List.find?, hlen]
  · simp [dictGet, conformersMapping, List.find?]
  · simp [dictGet, conformersMapping, List.find?]
  · intro c hc
    rcases hids c hc with h | h <;> simp [h]
  · simp [hasDegeneratedConformer, dictGet, conformersMapping, List.find?, hlen,
      getConformer, hfind, Bind.bind, Except.bind, Functor.map, Except.map]

/-- Witness for C10 at the conformer-free two-atom graph. -/
theorem c10_conformer_mapping_witness :
    dictGet (conformersMapping molCO) ConformerType.Model = Except.ok 1000 ∧
    dictGet (conformersMapping molCO) ConformerType.Computed = Except.ok 2000 ∧
    dictGet (conformersMapping molCO) ConformerType.Ideal = Except.ok 0 ∧
    (∀ c ∈ molCO.conformers, c.cid ≠ 1000 ∧ c.cid ≠ 2000) ∧
    hasDegeneratedConformer molCO ConformerType.Model = Except.error PyExc.valueError :=
  c10_conformer_mapping molCO (by simp [molCO]) (by decide)
